import Mathlib

/-!
Verification of the KML/KMZ feature-extraction core of
`Preliminary-AGM-kmz-kml-to-Delorme-Importer` (`app.py`).

Modelling conventions of this shallow embedding:
* Python `float` values are modelled as exact rationals (`ℚ`); no claim here
  depends on binary floating-point rounding.
* Python string primitives (`strip`, `split`, `lower`, `startswith`,
  `endswith`, `in`) are modelled by structurally recursive functions over
  `List Char` with Python's documented semantics (ASCII whitespace; exotic
  Unicode spacing and Unicode digits are not modelled).
* `lxml` element queries are modelled by records holding exactly the query
  results the program reads from a node (the text of the first matching
  element, `none` when the element is absent or has no text).  Python
  truthiness of a text (`el.text`) is modelled by an explicit `= ""` test.
* Python dictionaries built by repeated assignment are modelled as
  association lists onto which later assignments are prepended, so that
  `List.lookup` (first match) realises last-write-wins semantics.
* Fallible operations returning Python `None` are modelled with `Option`.
-/

/-- Split a character list at every character satisfying `p` (separators are
dropped, empty pieces kept), the common core of Python's `str.split`. -/
def splitWhen (p : Char → Bool) : List Char → List (List Char)
  | [] => [[]]
  | c :: cs =>
    let r := splitWhen p cs
    if p c then [] :: r
    else
      match r with
      | h :: t => (c :: h) :: t
      | [] => [[c]]

/-- Python `s.split(sep)` for a one-character separator: empty pieces kept. -/
def pySplitChar (s : String) (sep : Char) : List String :=
  (splitWhen (fun c => c == sep) s.toList).map String.mk

/-- Python `s.split()` with no argument: split on whitespace runs, dropping
empty pieces. -/
def pySplitWs (s : String) : List String :=
  ((splitWhen Char.isWhitespace s.toList).filter (fun t => !t.isEmpty)).map String.mk

/-- Characters stripped from both ends, as Python `str.strip()` does. -/
def stripWsChars (cs : List Char) : List Char :=
  ((cs.dropWhile Char.isWhitespace).reverse.dropWhile Char.isWhitespace).reverse

/-- Python `s.strip()`. -/
def pyStrip (s : String) : String :=
  String.mk (stripWsChars s.toList)

/-- Python `s.lower()` (ASCII letters). -/
def pyLower (s : String) : String :=
  String.mk (s.toList.map Char.toLower)

/-- Is `p` a leading run of `l`? -/
def listIsPref : List Char → List Char → Bool
  | [], _ => true
  | _ :: _, [] => false
  | a :: p, b :: l => a == b && listIsPref p l

/-- Does `p` occur contiguously inside `l`?  Python's `p in l`. -/
def listOccurs (p : List Char) : List Char → Bool
  | [] => listIsPref p []
  | c :: t => listIsPref p (c :: t) || listOccurs p t

/-- Python `pat in s` (substring containment). -/
def strContains (s pat : String) : Bool :=
  listOccurs pat.toList s.toList

/-- Python `s.endswith(suff)`. -/
def pyEndsWith (s suff : String) : Bool :=
  listIsPref suff.toList.reverse s.toList.reverse

/-- Value of a digit list read in base 10. -/
def digitsToNat (ds : List Char) : Nat :=
  ds.foldl (fun a c => a * 10 + (c.toNat - '0'.toNat)) 0

/-- Unsigned decimal literal `digits[.digits]` (at least one digit overall),
as accepted by Python `float`. -/
def parseUnsignedDec (cs : List Char) : Option ℚ :=
  match splitWhen (fun c => c == '.') cs with
  | [ds] =>
    if (!ds.isEmpty) && ds.all Char.isDigit then some (digitsToNat ds : ℚ)
    else none
  | [ip, fp] =>
    if (!(ip ++ fp).isEmpty) && ip.all Char.isDigit && fp.all Char.isDigit then
      some ((digitsToNat (ip ++ fp) : ℚ) / (10 ^ fp.length))
    else none
  | _ => none

/-- Read an optional leading sign; returns (negative?, rest). -/
def readSign : List Char → Bool × List Char
  | '+' :: cs => (false, cs)
  | '-' :: cs => (true, cs)
  | cs => (false, cs)

/-- Split at the first exponent marker `e`/`E`, if any. -/
def splitAtExp : List Char → List Char × Option (List Char)
  | [] => ([], none)
  | c :: rest =>
    if c == 'e' || c == 'E' then ([], some rest)
    else
      let r := splitAtExp rest
      (c :: r.1, r.2)

/-- Exponent part of a float literal: optional sign, then digits. -/
def parseExpPart (cs : List Char) : Option ℤ :=
  let p := readSign cs
  if (!p.2.isEmpty) && p.2.all Char.isDigit then
    some (if p.1 then -(digitsToNat p.2 : ℤ) else (digitsToNat p.2 : ℤ))
  else none

/-- Python `float(s)` on finite decimal literals (optional surrounding
whitespace, optional sign, decimal mantissa, optional signed exponent),
modelled exactly over `ℚ`; `inf`/`nan` inputs, which no claim exercises,
are not modelled (they yield `none`). -/
def pyFloat (s : String) : Option ℚ :=
  let cs := stripWsChars s.toList
  let sg := readSign cs
  let me := splitAtExp sg.2
  let base : Option ℚ :=
    match me.2 with
    | none => parseUnsignedDec me.1
    | some e =>
      match parseUnsignedDec me.1, parseExpPart e with
      | some q, some k => some (q * (10 : ℚ) ^ k)
      | _, _ => none
  base.map (fun q => if sg.1 then -q else q)

/-- `parse_coordinates_text` (app.py:28-43): split the text on whitespace;
for each token take the comma-separated fields, parse the first two as
floats, append `(lon, lat)` on success and silently skip the token on any
failure. -/
def parse_coordinates_text (coord_text : String) : List (ℚ × ℚ) :=
  (pySplitWs (pyStrip coord_text)).foldl
    (fun coords token =>
      match pySplitChar token ',' with
      | p0 :: p1 :: _ =>
        match pyFloat p0, pyFloat p1 with
        | some lon, some lat => coords ++ [(lon, lat)]
        | _, _ => coords
      | _ => coords)
    []

/-- Per-token parse used to state the contract of `parse_coordinates_text`:
the first two comma-separated fields as floats, or `none`. -/
def tokenPair (token : String) : Option (ℚ × ℚ) :=
  match pySplitChar token ',' with
  | p0 :: p1 :: _ =>
    match pyFloat p0, pyFloat p1 with
    | some lon, some lat => some (lon, lat)
    | _, _ => none
  | _ => none

/-- Python `round(x, 10)`: round to 10 decimal places (ties, which no claim
exercises, go to the nearest integer by Mathlib's `round`). -/
def round10 (x : ℚ) : ℚ :=
  (round (x * 10 ^ 10) : ℤ) / 10 ^ 10

/-- `is_triangle` (app.py:46-50): a polygon is a triangle when its vertices,
rounded coordinatewise to 10 decimals, have exactly 3 distinct values. -/
def is_triangle (vertices : List (ℚ × ℚ)) : Bool :=
  ((vertices.map (fun v => (round10 v.1, round10 v.2))).dedup).length == 3

/-- `centroid` (app.py:53-59): arithmetic mean of the vertex coordinates,
`(0, 0)` for an empty vertex list. -/
def centroid (vertices : List (ℚ × ℚ)) : ℚ × ℚ :=
  if vertices.isEmpty then (0, 0)
  else
    ((vertices.map Prod.fst).sum / ((vertices.map Prod.fst).length : ℚ),
     (vertices.map Prod.snd).sum / ((vertices.map Prod.snd).length : ℚ))

/-- One `Placemark` node, as the record of the element-text queries the
program performs on it (`none` = element absent or without text). -/
structure Placemark where
  pointCoordinates : Option String
  polygonCoordinates : Option String
  nameDirect : Option String
  nameAny : Option String
  styleUrl : Option String
  description : Option String
deriving DecidableEq

/-- One `Style` element: its `id` attribute (`""` when absent, as in
`style.get("id") or ""`) and the text of its first descendant
`IconStyle/Icon/href`. -/
structure KmlStyle where
  id : String
  iconHref : Option String
deriving DecidableEq

/-- One direct-child `Pair` of a `StyleMap`: texts of its `key` and
`styleUrl` children. -/
structure KmlPair where
  key : Option String
  styleUrl : Option String
deriving DecidableEq

/-- One `StyleMap` element: `id` attribute and direct-child pairs. -/
structure KmlStyleMap where
  id : String
  pairs : List KmlPair
deriving DecidableEq

/-- A parsed KML document: all `Style`, `StyleMap` and `Placemark` nodes in
document order. -/
structure KmlDocument where
  styles : List KmlStyle
  styleMaps : List KmlStyleMap
  placemarks : List Placemark
deriving DecidableEq

/-- `extract_placemark_point` (app.py:62-70): first `(lon, lat)` pair of the
Point coordinates, swapped to `(lat, lon)`; `none` when the element is
absent, has no text, or yields no valid pair. -/
def extract_placemark_point (pm : Placemark) : Option (ℚ × ℚ) :=
  match pm.pointCoordinates with
  | some t =>
    if t = "" then none
    else
      match parse_coordinates_text t with
      | [] => none
      | (lon, lat) :: _ => some (lat, lon)
  | none => none

/-- `extract_placemark_polygon` (app.py:73-81): all parsed outer-ring
vertices; `none` when the element is absent or has no text. -/
def extract_placemark_polygon (pm : Placemark) : Option (List (ℚ × ℚ)) :=
  match pm.polygonCoordinates with
  | some t => if t = "" then none else some (parse_coordinates_text t)
  | none => none

/-- `extract_name` (app.py:84-90): direct-child `name` text, stripped; else
descendant `name` text, stripped; else `""`. -/
def extract_name (pm : Placemark) : String :=
  match pm.nameDirect with
  | some t =>
    if t = "" then
      match pm.nameAny with
      | some u => if u = "" then "" else pyStrip u
      | none => ""
    else pyStrip t
  | none =>
    match pm.nameAny with
    | some u => if u = "" then "" else pyStrip u
    | none => ""

/-- Strip one leading `#`, as `target[1:]` after a `startswith("#")` test. -/
def stripHash (s : String) : String :=
  match s.toList with
  | '#' :: t => String.mk t
  | _ => s

/-- `build_style_index` (app.py:93-130): the id→href index over `Style`
elements and the id→target index over the "normal" pairs of `StyleMap`
elements; entries are prepended so that `List.lookup` returns the last
assignment, like a Python dict. -/
def build_style_index (doc : KmlDocument) : List (String × String) × List (String × String) :=
  let icon := doc.styles.foldl
    (fun idx st =>
      match st.iconHref with
      | some t => if st.id ≠ "" ∧ t ≠ "" then (st.id, pyStrip t) :: idx else idx
      | none => idx)
    []
  let smaps := doc.styleMaps.foldl
    (fun idx sm =>
      sm.pairs.foldl
        (fun idx pr =>
          match pr.key, pr.styleUrl with
          | some k, some u =>
            if sm.id ≠ "" ∧ k ≠ "" ∧ pyLower (pyStrip k) = "normal" ∧ u ≠ "" then
              (sm.id, stripHash (pyStrip u)) :: idx
            else idx
          | _, _ => idx)
        idx)
    []
  (icon, smaps)

/-- `resolve_style_href_for_placemark` (app.py:133-151): direct-child
`styleUrl` text, stripped of one leading `#`, redirected once through the
StyleMap index, then looked up in the Style index. -/
def resolve_style_href_for_placemark (pm : Placemark)
    (icon_by_style_id normal_target_by_stylemap_id : List (String × String)) :
    Option String :=
  match pm.styleUrl with
  | none => none
  | some t =>
    if t = "" then none
    else
      let ref := stripHash (pyStrip t)
      let ref :=
        match List.lookup ref normal_target_by_stylemap_id with
        | some tgt => tgt
        | none => ref
      List.lookup ref icon_by_style_id

/-- `detect_symbol` (app.py:154-172): Purple Triangle for a triangular
polygon, else Purple Triangle when the resolved href contains "triangle",
else Red Flag. -/
def detect_symbol (pm : Placemark)
    (icon_by_style_id normal_target_by_stylemap_id : List (String × String)) : String :=
  let tri :=
    match extract_placemark_polygon pm with
    | some vertices => !vertices.isEmpty && is_triangle vertices
    | none => false
  if tri then "Purple Triangle"
  else
    match resolve_style_href_for_placemark pm icon_by_style_id normal_target_by_stylemap_id with
    | some href => if (!(href == "")) && strContains (pyLower href) "triangle" then "Purple Triangle" else "Red Flag"
    | none => "Red Flag"

/-- One output row of the exported table. -/
structure Row where
  Latitude : ℚ
  Longitude : ℚ
  Name : String
  Symbol : String
deriving DecidableEq

/-- The loop body of `parse_kml` as a per-Placemark function: the row a
Placemark contributes, or `none` when it has no usable geometry. -/
def placemark_row (icon smaps : List (String × String)) (pm : Placemark) : Option Row :=
  match extract_placemark_point pm with
  | some p => some ⟨p.1, p.2, extract_name pm, detect_symbol pm icon smaps⟩
  | none =>
    match extract_placemark_polygon pm with
    | some vertices =>
      if vertices.isEmpty then none
      else
        some ⟨(centroid vertices).2, (centroid vertices).1, extract_name pm,
          detect_symbol pm icon smaps⟩
    | none => none

/-- `parse_kml` (app.py:175-216): build the style indices, then for every
Placemark in document order emit a row from its Point (preferred) or its
polygon centroid, skipping Placemarks with neither. -/
def parse_kml (doc : KmlDocument) : List Row :=
  let idx := build_style_index doc
  doc.placemarks.foldl
    (fun rows pm =>
      let name := extract_name pm
      match extract_placemark_point pm with
      | some p =>
        rows ++ [⟨p.1, p.2, name, detect_symbol pm idx.1 idx.2⟩]
      | none =>
        match extract_placemark_polygon pm with
        | some vertices =>
          if vertices.isEmpty then rows
          else
            let c := centroid vertices
            rows ++ [⟨c.2, c.1, name, detect_symbol pm idx.1 idx.2⟩]
        | none => rows)
    []

/-- `z.read(name)`: bytes of the entry with that name (a zip's name table
keeps the last entry under a duplicated name). -/
def zipRead (entries : List (String × String)) (t : String) : Option String :=
  ((entries.filter (fun e => e.1 == t)).getLast?).map Prod.snd

/-- `read_kml_from_kmz` (app.py:17-25): a zip archive as its listing of
(entry name, entry bytes); pick a preferred exact name, else the first
entry whose lowercased name ends in `.kml`, and return that entry's bytes
(`none` when no entry qualifies). -/
def read_kml_from_kmz (entries : List (String × String)) : Option String :=
  match List.find? (fun p => (entries.map Prod.fst).contains p) ["doc.kml", "root.kml", "index.kml"] with
  | some t => zipRead entries t
  | none =>
    match List.find? (fun n => pyEndsWith (pyLower n) ".kml") (entries.map Prod.fst) with
    | some t => zipRead entries t
    | none => none

/-- Decimal formatting of coordinates is implementation-defined for this
program; values, here exact rationals, are rendered as `num` or
`num/den`. -/
def floatStr (q : ℚ) : String :=
  if q.den == 1 then toString q.num else toString q.num ++ "/" ++ toString q.den

/-- Does a field need CSV quoting (the `csv` module's minimal quoting, as
pandas `to_csv` applies)? -/
def needsQuoting (s : String) : Bool :=
  s.toList.any (fun c => c == ',' || c == '"' || c == '\n' || c == '\r')

/-- Double every inner double quote of a quoted CSV field. -/
def escQuotes : List Char → List Char
  | [] => []
  | c :: t => if c == '"' then '"' :: '"' :: escQuotes t else c :: escQuotes t

/-- One CSV field under minimal quoting. -/
def csvField (s : String) : String :=
  if needsQuoting s then "\"" ++ String.mk (escQuotes s.toList) ++ "\"" else s

/-- The fixed header, `",".join(df.columns)` for both serializers. -/
def csvHeader : String := "Latitude,Longitude,Name,Symbol"

/-- One data line as pandas `to_csv` emits it. -/
def rowCsvLine (r : Row) : String :=
  csvField (floatStr r.Latitude) ++ "," ++ csvField (floatStr r.Longitude) ++ ","
    ++ csvField r.Name ++ "," ++ csvField r.Symbol

/-- One data line as the f-string of `dataframe_to_txt` emits it (no
quoting). -/
def rowTxtLine (r : Row) : String :=
  floatStr r.Latitude ++ "," ++ floatStr r.Longitude ++ "," ++ r.Name ++ "," ++ r.Symbol

/-- `dataframe_to_csv_bytes` (app.py:230-234): header line then one quoted
CSV line per row. -/
def dataframe_to_csv_bytes (rows : List Row) : String :=
  rows.foldl (fun acc r => acc ++ (rowCsvLine r ++ "\n")) (csvHeader ++ "\n")

/-- `dataframe_to_txt` (app.py:219-227): header line then one raw
comma-joined line per row. -/
def dataframe_to_txt (rows : List Row) : String :=
  rows.foldl (fun acc r => acc ++ (rowTxtLine r ++ "\n")) (csvHeader ++ "\n")

/-! ## Helper lemmas -/

theorem str_append_assoc (a b c : String) : a ++ b ++ c = a ++ (b ++ c) := by
  apply String.ext
  simp [String.data_append, List.append_assoc]

/-- The token loop of `parse_coordinates_text` appends exactly the parses of
the successful tokens, in order. -/
theorem coords_foldl_eq (l : List String) :
    ∀ acc : List (ℚ × ℚ),
      l.foldl
        (fun coords token =>
          match pySplitChar token ',' with
          | p0 :: p1 :: _ =>
            match pyFloat p0, pyFloat p1 with
            | some lon, some lat => coords ++ [(lon, lat)]
            | _, _ => coords
          | _ => coords)
        acc
      = acc ++ l.filterMap tokenPair := by
  induction l with
  | nil => intro acc; simp
  | cons tok t ih =>
    intro acc
    have hstep :
        (match pySplitChar tok ',' with
          | p0 :: p1 :: _ =>
            match pyFloat p0, pyFloat p1 with
            | some lon, some lat => acc ++ [(lon, lat)]
            | _, _ => acc
          | _ => acc)
        = acc ++ (tokenPair tok).toList := by
      unfold tokenPair
      rcases pySplitChar tok ',' with _ | ⟨p0, _ | ⟨p1, rest⟩⟩
      · simp
      · simp
      · cases h0 : pyFloat p0 <;> cases h1 : pyFloat p1 <;> simp [h0, h1]
    simp only [List.foldl_cons, List.filterMap_cons, hstep]
    rw [ih]
    rcases tokenPair tok with _ | pr <;> simp

/-! ## Claim theorems -/

/-- C6: `parse_coordinates_text` splits on whitespace, parses the first two
comma-separated fields of each token as floats, appends `(lon, lat)` on
success, silently skips unparsable tokens without aborting, and returns the
successes in input token order; in particular the middle bad tokens of
`"1,2 x 3,4,5 ,7 8,"` are skipped while parsing continues. -/
theorem parse_coordinates_text_spec :
    (∀ coord_text : String,
      parse_coordinates_text coord_text
        = (pySplitWs (pyStrip coord_text)).filterMap tokenPair)
    ∧ parse_coordinates_text "1,2 x 3,4,5 ,7 8," = [(1, 2), (3, 4)] := by
  constructor
  · intro coord_text
    unfold parse_coordinates_text
    rw [coords_foldl_eq]
    simp
  · with_unfolding_all decide

/-- C3: the triangle test holds exactly when the set of coordinatewise
10-decimal roundings of the vertices has exactly 3 elements; the closed
triangular ring passes and the closed square ring fails. -/
theorem is_triangle_spec :
    (∀ vertices : List (ℚ × ℚ),
      is_triangle vertices = true
        ↔ ((vertices.map (fun v => (round10 v.1, round10 v.2))).toFinset.card = 3))
    ∧ is_triangle [(0, 0), (1, 0), (0, 1), (0, 0)] = true
    ∧ is_triangle [(0, 0), (1, 0), (1, 1), (0, 1), (0, 0)] = false := by
  refine ⟨fun vertices => ?_, by with_unfolding_all decide, by with_unfolding_all decide⟩
  simp [is_triangle, List.card_toFinset]

/-- C7: the centroid of a nonempty vertex list is the pair of arithmetic
means over all vertices (the duplicated closing vertex included, since every
list element counts), and the empty list yields exactly `(0, 0)` with no
division performed. -/
theorem centroid_spec :
    centroid ([] : List (ℚ × ℚ)) = (0, 0)
    ∧ ∀ vertices : List (ℚ × ℚ), vertices ≠ [] →
        centroid vertices
          = ((vertices.map Prod.fst).sum / (vertices.length : ℚ),
             (vertices.map Prod.snd).sum / (vertices.length : ℚ)) := by
  refine ⟨rfl, fun vertices h => ?_⟩
  simp [centroid, h]

/-- Witness for C7 at the spec's own example: the centroid of
`[(0,0),(2,0),(1,2)]` is the plain mean `(1, 2/3)`. -/
theorem centroid_spec_witness :
    ([((0 : ℚ), (0 : ℚ)), (2, 0), (1, 2)] ≠ [])
    ∧ centroid [((0 : ℚ), (0 : ℚ)), (2, 0), (1, 2)] = (1, 2 / 3) :=
  ⟨by decide, by rw [centroid_spec.2 _ (by decide)]; with_unfolding_all decide⟩

/-- One iteration of the `parse_kml` loop appends exactly the row of
`placemark_row`. -/
theorem row_step (i s : List (String × String)) (acc : List Row) (pm : Placemark) :
    (match extract_placemark_point pm with
      | some p => acc ++ [(⟨p.1, p.2, extract_name pm, detect_symbol pm i s⟩ : Row)]
      | none =>
        match extract_placemark_polygon pm with
        | some vertices =>
          if vertices.isEmpty then acc
          else
            acc ++ [(⟨(centroid vertices).2, (centroid vertices).1, extract_name pm,
              detect_symbol pm i s⟩ : Row)]
        | none => acc)
    = acc ++ (placemark_row i s pm).toList := by
  unfold placemark_row
  cases hpt : extract_placemark_point pm with
  | some p => simp
  | none =>
    cases hpg : extract_placemark_polygon pm with
    | some vs => by_cases hv : vs.isEmpty <;> simp [hv]
    | none => simp

/-- `parse_kml` is the per-Placemark row function mapped (with skips) over
the document's Placemarks in order. -/
theorem parse_kml_rows_eq (doc : KmlDocument) :
    parse_kml doc
      = doc.placemarks.filterMap
          (placemark_row (build_style_index doc).1 (build_style_index doc).2) := by
  unfold parse_kml
  have aux : ∀ (pms : List Placemark) (acc : List Row),
      pms.foldl
        (fun rows pm =>
          let name := extract_name pm
          match extract_placemark_point pm with
          | some p =>
            rows ++ [(⟨p.1, p.2, name, detect_symbol pm (build_style_index doc).1 (build_style_index doc).2⟩ : Row)]
          | none =>
            match extract_placemark_polygon pm with
            | some vertices =>
              if vertices.isEmpty then rows
              else
                let c := centroid vertices
                rows ++ [(⟨c.2, c.1, name, detect_symbol pm (build_style_index doc).1 (build_style_index doc).2⟩ : Row)]
            | none => rows)
        acc
      = acc ++ pms.filterMap (placemark_row (build_style_index doc).1 (build_style_index doc).2) := by
    intro pms
    induction pms with
    | nil => intro acc; simp
    | cons pm t ih =>
      intro acc
      simp only [List.foldl_cons, List.filterMap_cons]
      rw [show
        (let name := extract_name pm
         match extract_placemark_point pm with
         | some p =>
           acc ++ [(⟨p.1, p.2, name, detect_symbol pm (build_style_index doc).1 (build_style_index doc).2⟩ : Row)]
         | none =>
           match extract_placemark_polygon pm with
           | some vertices =>
             if vertices.isEmpty then acc
             else
               let c := centroid vertices
               acc ++ [(⟨c.2, c.1, name, detect_symbol pm (build_style_index doc).1 (build_style_index doc).2⟩ : Row)]
           | none => acc)
        = acc ++ (placemark_row (build_style_index doc).1 (build_style_index doc).2 pm).toList
        from row_step _ _ acc pm]
      rw [ih]
      rcases placemark_row (build_style_index doc).1 (build_style_index doc).2 pm with _ | r <;> simp
  exact aux doc.placemarks []

/-- C2: a Placemark's row is strictly determined by its Point when one is
extractable (the first parsed pair, swapped from (lon, lat) to (lat, lon)),
even when a Polygon is also present; with no Point but a nonempty polygon
outer ring the centroid is used; with neither, no row is produced — and
`parse_kml` emits exactly these rows in document order. -/
theorem parse_kml_point_priority :
    (∀ doc : KmlDocument,
      parse_kml doc
        = doc.placemarks.filterMap
            (placemark_row (build_style_index doc).1 (build_style_index doc).2))
    ∧ (∀ (i s : List (String × String)) (pm : Placemark) (la lo : ℚ),
        extract_placemark_point pm = some (la, lo) →
        placemark_row i s pm = some ⟨la, lo, extract_name pm, detect_symbol pm i s⟩)
    ∧ (∀ (pm : Placemark) (t : String) (lo la : ℚ) (rest : List (ℚ × ℚ)),
        pm.pointCoordinates = some t →
        parse_coordinates_text t = (lo, la) :: rest →
        extract_placemark_point pm = some (la, lo))
    ∧ (∀ (i s : List (String × String)) (pm : Placemark) (vs : List (ℚ × ℚ)),
        extract_placemark_point pm = none →
        extract_placemark_polygon pm = some vs →
        vs.isEmpty = false →
        placemark_row i s pm
          = some ⟨(centroid vs).2, (centroid vs).1, extract_name pm, detect_symbol pm i s⟩)
    ∧ (∀ (i s : List (String × String)) (pm : Placemark),
        extract_placemark_point pm = none →
        (extract_placemark_polygon pm = none ∨ extract_placemark_polygon pm = some []) →
        placemark_row i s pm = none) := by
  refine ⟨parse_kml_rows_eq, ?_, ?_, ?_, ?_⟩
  · intro i s pm la lo h
    simp [placemark_row, h]
  · intro pm t lo la rest hpc hparse
    unfold extract_placemark_point
    rw [hpc]
    by_cases ht : t = ""
    · subst ht
      exact absurd hparse (by rw [show parse_coordinates_text "" = [] from by with_unfolding_all decide]; simp)
    · simp [ht, hparse]
  · intro i s pm vs hpt hpg hv
    simp [placemark_row, hpt, hpg, hv]
  · intro i s pm hpt hpg
    rcases hpg with h | h <;> simp [placemark_row, hpt, h]

/-- Witness for C2 on a Placemark carrying both a Point `"2,1"` and a
triangular Polygon: the Point determines the row. -/
theorem parse_kml_point_priority_witness :
    extract_placemark_point
        ⟨some "2,1", some "0,0 1,0 0,1 0,0", none, none, none, none⟩ = some (1, 2)
    ∧ placemark_row [] [] ⟨some "2,1", some "0,0 1,0 0,1 0,0", none, none, none, none⟩
        = some ⟨1, 2,
            extract_name ⟨some "2,1", some "0,0 1,0 0,1 0,0", none, none, none, none⟩,
            detect_symbol ⟨some "2,1", some "0,0 1,0 0,1 0,0", none, none, none, none⟩ [] []⟩ :=
  ⟨by with_unfolding_all decide,
   parse_kml_point_priority.2.1 [] [] _ 1 2 (by with_unfolding_all decide)⟩

/-- A vertex list passing the triangle test is nonempty. -/
theorem is_triangle_nonempty {vs : List (ℚ × ℚ)} (h : is_triangle vs = true) :
    vs.isEmpty = false := by
  cases vs with
  | nil => exact absurd h (by decide)
  | cons a t => rfl

/-- `detect_symbol` only ever returns one of its two literals. -/
theorem detect_symbol_cases (pm : Placemark) (i s : List (String × String)) :
    detect_symbol pm i s = "Purple Triangle" ∨ detect_symbol pm i s = "Red Flag" := by
  simp only [detect_symbol]
  split
  · left; rfl
  · cases resolve_style_href_for_placemark pm i s with
    | none => right; rfl
    | some href =>
      cases hcond : ((!(href == "")) && strContains (pyLower href) "triangle") with
      | true => left; simp [hcond]
      | false => right; simp [hcond]

/-- Every row produced by `placemark_row` carries the classifier's symbol. -/
theorem placemark_row_symbol {i s : List (String × String)} {pm : Placemark} {r : Row}
    (h : placemark_row i s pm = some r) : r.Symbol = detect_symbol pm i s := by
  unfold placemark_row at h
  split at h
  · rw [Option.some.injEq] at h
    subst h
    rfl
  · split at h
    · split at h
      · exact Option.noConfusion h
      · rw [Option.some.injEq] at h
        subst h
        rfl
    · exact Option.noConfusion h

/-- C1 counterexample: with no Polygon and no resolvable style, the code
returns `"Red Flag"` even when the description contains "triangle" (the
claim's step 3 demands `"Purple Triangle"`), and the empty Placemark's
default is `"Red Flag"`, not the claim's step-4 `"Yellow Dot"`. -/
theorem detect_symbol_description_cex :
    detect_symbol ⟨none, none, none, none, none, some "this has a triangle"⟩ [] [] = "Red Flag"
    ∧ detect_symbol ⟨none, none, none, none, none, some "this has a triangle"⟩ [] [] ≠ "Purple Triangle"
    ∧ detect_symbol ⟨none, none, none, none, none, none⟩ [] [] = "Red Flag"
    ∧ detect_symbol ⟨none, none, none, none, none, none⟩ [] [] ≠ "Yellow Dot" := by
  refine ⟨by decide, by decide, by decide, by decide⟩

/-- C1 (amended): the classifier is a two-step fallback — triangular Polygon
gives Purple Triangle; else a resolved href containing "triangle"
(case-insensitively) gives Purple Triangle; otherwise — whether no href
resolves, or the resolved href is empty or lacks "triangle" — the default
is Red Flag.  The description text is never consulted and "Yellow Dot" is
never returned. -/
theorem detect_symbol_two_step :
    (∀ (pm : Placemark) (i s : List (String × String)) (vs : List (ℚ × ℚ)),
      extract_placemark_polygon pm = some vs → is_triangle vs = true →
      detect_symbol pm i s = "Purple Triangle")
    ∧ (∀ (pm : Placemark) (i s : List (String × String)) (href : String),
        resolve_style_href_for_placemark pm i s = some href →
        strContains (pyLower href) "triangle" = true →
        detect_symbol pm i s = "Purple Triangle")
    ∧ (∀ (pm : Placemark) (i s : List (String × String)),
        resolve_style_href_for_placemark pm i s = none →
        (match extract_placemark_polygon pm with
          | some vertices => !vertices.isEmpty && is_triangle vertices
          | none => false) = false →
        detect_symbol pm i s = "Red Flag")
    ∧ (∀ (pm : Placemark) (i s : List (String × String)) (href : String),
        resolve_style_href_for_placemark pm i s = some href →
        (href = "" ∨ strContains (pyLower href) "triangle" = false) →
        (match extract_placemark_polygon pm with
          | some vertices => !vertices.isEmpty && is_triangle vertices
          | none => false) = false →
        detect_symbol pm i s = "Red Flag")
    ∧ (∀ (pm : Placemark) (i s : List (String × String)) (d e : Option String),
        detect_symbol { pm with description := d } i s
          = detect_symbol { pm with description := e } i s)
    ∧ (∀ (pm : Placemark) (i s : List (String × String)),
        detect_symbol pm i s ≠ "Yellow Dot") := by
  refine ⟨?_, ?_, ?_, ?_, ?_, ?_⟩
  · intro pm i s vs hpg htri
    simp [detect_symbol, hpg, htri, is_triangle_nonempty htri]
  · intro pm i s href hres hc
    have hne : (href == "") = false := by
      cases hh : href == "" with
      | false => rfl
      | true =>
        have : href = "" := eq_of_beq hh
        subst this
        exact absurd hc (by decide)
    simp only [detect_symbol]
    split
    · rfl
    · rw [hres]
      simp [hne, hc]
  · intro pm i s hres hcond
    simp [detect_symbol, hres, hcond]
  · intro pm i s href hres hbad hcond
    rcases hbad with h | h
    · subst h
      simp [detect_symbol, hcond, hres]
    · simp [detect_symbol, hcond, hres, h]
  · intro pm i s d e
    rfl
  · intro pm i s
    rcases detect_symbol_cases pm i s with h | h <;> rw [h] <;> decide

/-- Witness for C1 (amended) on a triangular-Polygon Placemark, and on the
default step for a Placemark whose href resolves to "dot.png" (no
"triangle"). -/
theorem detect_symbol_two_step_witness :
    extract_placemark_polygon ⟨none, some "0,0 1,0 0,1 0,0", none, none, none, none⟩
        = some [((0 : ℚ), (0 : ℚ)), (1, 0), (0, 1), (0, 0)]
    ∧ is_triangle [((0 : ℚ), (0 : ℚ)), (1, 0), (0, 1), (0, 0)] = true
    ∧ detect_symbol ⟨none, some "0,0 1,0 0,1 0,0", none, none, none, none⟩ [] []
        = "Purple Triangle"
    ∧ resolve_style_href_for_placemark ⟨none, none, none, none, some "#s", none⟩
        [("s", "dot.png")] [] = some "dot.png"
    ∧ strContains (pyLower "dot.png") "triangle" = false
    ∧ detect_symbol ⟨none, none, none, none, some "#s", none⟩ [("s", "dot.png")] []
        = "Red Flag" := by
  refine ⟨?_, ?_, ?_, ?_, ?_, ?_⟩
  · with_unfolding_all decide
  · with_unfolding_all decide
  · exact detect_symbol_two_step.1 ⟨none, some "0,0 1,0 0,1 0,0", none, none, none, none⟩
      [] [] [((0 : ℚ), (0 : ℚ)), (1, 0), (0, 1), (0, 0)]
      (by with_unfolding_all decide) (by with_unfolding_all decide)
  · decide
  · decide
  · exact detect_symbol_two_step.2.2.2.1 ⟨none, none, none, none, some "#s", none⟩
      [("s", "dot.png")] [] "dot.png" (by decide) (Or.inr (by decide)) (by decide)

/-- C10: the Symbol Classifier's range is exactly the two labels
"Purple Triangle" and "Red Flag" — never "Yellow Dot" — and therefore every
emitted Feature Row's Symbol field is one of those two labels. -/
theorem detect_symbol_range :
    (∀ (pm : Placemark) (i s : List (String × String)),
      detect_symbol pm i s = "Purple Triangle" ∨ detect_symbol pm i s = "Red Flag")
    ∧ (∀ (pm : Placemark) (i s : List (String × String)),
        detect_symbol pm i s ≠ "Yellow Dot")
    ∧ (∀ (doc : KmlDocument) (r : Row), r ∈ parse_kml doc →
        r.Symbol = "Purple Triangle" ∨ r.Symbol = "Red Flag") := by
  refine ⟨detect_symbol_cases, ?_, ?_⟩
  · intro pm i s
    rcases detect_symbol_cases pm i s with h | h <;> rw [h] <;> decide
  · intro doc r hr
    rw [parse_kml_rows_eq] at hr
    obtain ⟨pm, hpm, hrow⟩ := List.mem_filterMap.mp hr
    rw [placemark_row_symbol hrow]
    exact detect_symbol_cases pm _ _

/-- Witness for C10 on a one-Placemark document. -/
theorem detect_symbol_range_witness :
    (⟨1, 2, "007", "Red Flag"⟩ : Row)
        ∈ parse_kml (⟨[], [], [⟨some "2,1", none, some "007", none, none, none⟩]⟩ : KmlDocument)
    ∧ (((⟨1, 2, "007", "Red Flag"⟩ : Row).Symbol = "Purple Triangle")
        ∨ ((⟨1, 2, "007", "Red Flag"⟩ : Row).Symbol = "Red Flag")) := by
  refine ⟨?_, ?_⟩
  · with_unfolding_all decide
  · exact detect_symbol_range.2.2
      (⟨[], [], [⟨some "2,1", none, some "007", none, none, none⟩]⟩ : KmlDocument)
      (⟨1, 2, "007", "Red Flag"⟩ : Row) (by with_unfolding_all decide)

/-- C4: style resolution reads the direct-child styleUrl (absence means "no
href"), strips one leading `#`, follows the StyleMap "normal" target once,
then looks the result up in the Style index (a miss means "no href"); the
spec's sm1→st2→"triangle-icon.png" scenario classifies as Purple Triangle;
exactly one `#` is stripped; and indirection is single-level (an a→b→c
StyleMap chain does not reach c's style). -/
theorem resolve_style_spec :
    (∀ (pm : Placemark) (i s : List (String × String)),
      pm.styleUrl = none → resolve_style_href_for_placemark pm i s = none)
    ∧ (∀ (pm : Placemark) (s : List (String × String)),
        resolve_style_href_for_placemark pm [] s = none)
    ∧ (resolve_style_href_for_placemark ⟨none, none, none, none, some "#sm1", none⟩
        (build_style_index ⟨[⟨"st2", some "triangle-icon.png"⟩],
          [⟨"sm1", [⟨some "normal", some "#st2"⟩]⟩], []⟩).1
        (build_style_index ⟨[⟨"st2", some "triangle-icon.png"⟩],
          [⟨"sm1", [⟨some "normal", some "#st2"⟩]⟩], []⟩).2
        = some "triangle-icon.png")
    ∧ (detect_symbol ⟨none, none, none, none, some "#sm1", none⟩
        (build_style_index ⟨[⟨"st2", some "triangle-icon.png"⟩],
          [⟨"sm1", [⟨some "normal", some "#st2"⟩]⟩], []⟩).1
        (build_style_index ⟨[⟨"st2", some "triangle-icon.png"⟩],
          [⟨"sm1", [⟨some "normal", some "#st2"⟩]⟩], []⟩).2
        = "Purple Triangle")
    ∧ (resolve_style_href_for_placemark ⟨none, none, none, none, some "##t", none⟩
        [("#t", "h.png")] [] = some "h.png")
    ∧ (resolve_style_href_for_placemark ⟨none, none, none, none, some "#a", none⟩
        (build_style_index ⟨[⟨"c", some "x.png"⟩],
          [⟨"a", [⟨some "normal", some "#b"⟩]⟩, ⟨"b", [⟨some "normal", some "#c"⟩]⟩], []⟩).1
        (build_style_index ⟨[⟨"c", some "x.png"⟩],
          [⟨"a", [⟨some "normal", some "#b"⟩]⟩, ⟨"b", [⟨some "normal", some "#c"⟩]⟩], []⟩).2
        = none) := by
  refine ⟨?_, ?_, by decide, by decide, by decide, by decide⟩
  · intro pm i s h
    simp [resolve_style_href_for_placemark, h]
  · intro pm s
    unfold resolve_style_href_for_placemark
    cases pm.styleUrl with
    | none => rfl
    | some t =>
      by_cases ht : t = ""
      · simp [ht]
      · simp only [ht, if_false]
        cases List.lookup (stripHash (pyStrip t)) s <;> rfl

/-- Witness for C4: a Placemark without a styleUrl resolves to "no href"
against arbitrary nonempty indices. -/
theorem resolve_style_spec_witness :
    (⟨none, none, none, none, none, none⟩ : Placemark).styleUrl = none
    ∧ resolve_style_href_for_placemark ⟨none, none, none, none, none, none⟩
        [("a", "b.png")] [("c", "d")] = none := by
  refine ⟨rfl, ?_⟩
  exact resolve_style_spec.1 ⟨none, none, none, none, none, none⟩ [("a", "b.png")] [("c", "d")] rfl

/-- C5 counterexample: with entries `a.kml` and `sub/doc.kml`, the claim's
"any path ending with doc.kml" priority demands the bytes "B" of
`sub/doc.kml`, but the code matches preferred names only exactly and falls
back to the first `.kml` entry, returning the bytes "A" of `a.kml`. -/
theorem read_kml_from_kmz_cex :
    read_kml_from_kmz [("a.kml", "A"), ("sub/doc.kml", "B")] = some "A"
    ∧ read_kml_from_kmz [("a.kml", "A"), ("sub/doc.kml", "B")] ≠ some "B" := by
  exact ⟨by decide, by decide⟩

/-- C5 (amended): the preferred names doc.kml, root.kml, index.kml are
matched as exact entry names only (not as path suffixes), in that priority
order; otherwise the first entry whose name case-insensitively ends with
".kml" is chosen in listing order; with no such entry the operation yields
no KML (the caller reports the failure). -/
theorem read_kml_from_kmz_spec :
    (∀ entries : List (String × String),
      ((entries.map Prod.fst).all (fun n => !pyEndsWith (pyLower n) ".kml")) = true →
      read_kml_from_kmz entries = none)
    ∧ read_kml_from_kmz [("images/icon.png", "P"), ("doc.kml", "K")] = some "K"
    ∧ read_kml_from_kmz [("root.kml", "R"), ("doc.kml", "D")] = some "D"
    ∧ read_kml_from_kmz [("index.kml", "I"), ("root.kml", "R")] = some "R"
    ∧ read_kml_from_kmz [("mydata.KML", "M")] = some "M"
    ∧ read_kml_from_kmz [("sub/doc.kml", "B"), ("z.kml", "Z")] = some "B" := by
  refine ⟨?_, by decide, by decide, by decide, by decide, by decide⟩
  intro entries hall
  have hmem : ∀ n ∈ entries.map Prod.fst, pyEndsWith (pyLower n) ".kml" = false := by
    intro n hn
    have h := List.all_eq_true.mp hall n hn
    simpa using h
  have h1 : List.find? (fun p => (entries.map Prod.fst).contains p)
      ["doc.kml", "root.kml", "index.kml"] = none := by
    rw [List.find?_eq_none]
    intro p hp hcon
    have hpmem : p ∈ entries.map Prod.fst := List.mem_of_elem_eq_true hcon
    have hends := hmem p hpmem
    simp only [List.mem_cons, List.not_mem_nil, or_false] at hp
    rcases hp with h | h | h <;> subst h <;> exact absurd hends (by decide)
  have h2 : List.find? (fun n => pyEndsWith (pyLower n) ".kml")
      (entries.map Prod.fst) = none := by
    rw [List.find?_eq_none]
    intro n hn hends
    exact absurd hends (by simp [hmem n hn])
  unfold read_kml_from_kmz
  simp only [h1, h2]

/-- Witness for C5 (amended): a zip with no .kml entry yields no KML. -/
theorem read_kml_from_kmz_spec_witness :
    ((([("a.txt", "x")] : List (String × String)).map Prod.fst).all
        (fun n => !pyEndsWith (pyLower n) ".kml")) = true
    ∧ read_kml_from_kmz [("a.txt", "x")] = none := by
  refine ⟨by decide, ?_⟩
  exact read_kml_from_kmz_spec.1 [("a.txt", "x")] (by decide)

/-- The serializer fold only ever appends to its accumulator. -/
theorem csv_suffix_any (l : List Row) :
    ∀ acc : String, ∃ post,
      l.foldl (fun a r => a ++ (rowCsvLine r ++ "\n")) acc = acc ++ post := by
  induction l with
  | nil => intro acc; exact ⟨"", (String.append_empty acc).symm⟩
  | cons r t ih =>
    intro acc
    obtain ⟨post, hpost⟩ := ih (acc ++ (rowCsvLine r ++ "\n"))
    refine ⟨(rowCsvLine r ++ "\n") ++ post, ?_⟩
    rw [List.foldl_cons, hpost]
    exact str_append_assoc _ _ _

/-- Every member row's full line occurs inside the serializer fold's
output. -/
theorem csv_foldl_mem (r : Row) :
    ∀ (l : List Row), r ∈ l → ∀ acc : String, ∃ pre post,
      l.foldl (fun a x => a ++ (rowCsvLine x ++ "\n")) acc
        = pre ++ (rowCsvLine r ++ ("\n" ++ post)) := by
  intro l
  induction l with
  | nil => intro h; exact absurd h (List.not_mem_nil r)
  | cons x t ih =>
    intro hmem acc
    rcases List.mem_cons.mp hmem with heq | ht
    · subst heq
      obtain ⟨post, hpost⟩ := csv_suffix_any t (acc ++ (rowCsvLine r ++ "\n"))
      refine ⟨acc, post, ?_⟩
      rw [List.foldl_cons, hpost, str_append_assoc, str_append_assoc]
    · obtain ⟨pre, post, h⟩ := ih ht (acc ++ (rowCsvLine x ++ "\n"))
      exact ⟨pre, post, by rw [List.foldl_cons, h]⟩

/-- C8: the CSV serialization preserves the Name field literally (no numeric
reinterpretation): every member row's unquoted Name appears delimited by its
surrounding comma separators, and a Placemark named "007" yields exactly the
data row `1,2,007,Red Flag` end-to-end. -/
theorem csv_preserves_name :
    (∀ (rows : List Row) (r : Row), r ∈ rows → needsQuoting r.Name = false →
      ∃ pre post, dataframe_to_csv_bytes rows
        = pre ++ ("," ++ (r.Name ++ ("," ++ post))))
    ∧ dataframe_to_csv_bytes
        (parse_kml (⟨[], [], [⟨some "2,1", none, some "007", none, none, none⟩]⟩ : KmlDocument))
      = "Latitude,Longitude,Name,Symbol\n1,2,007,Red Flag\n" := by
  refine ⟨?_, by with_unfolding_all decide⟩
  intro rows r hmem hq
  obtain ⟨pre, post, h⟩ := csv_foldl_mem r rows hmem (csvHeader ++ "\n")
  refine ⟨pre ++ (csvField (floatStr r.Latitude) ++ ("," ++ csvField (floatStr r.Longitude))),
    csvField r.Symbol ++ ("\n" ++ post), ?_⟩
  unfold dataframe_to_csv_bytes
  rw [h]
  unfold rowCsvLine
  rw [show csvField r.Name = r.Name from by simp [csvField, hq]]
  simp only [str_append_assoc]

/-- Witness for C8 on a one-row set with Name "007". -/
theorem csv_preserves_name_witness :
    ((⟨1, 2, "007", "Red Flag"⟩ : Row) ∈ ([⟨1, 2, "007", "Red Flag"⟩] : List Row))
    ∧ needsQuoting (⟨1, 2, "007", "Red Flag"⟩ : Row).Name = false
    ∧ ∃ pre post, dataframe_to_csv_bytes [(⟨1, 2, "007", "Red Flag"⟩ : Row)]
        = pre ++ ("," ++ ((⟨1, 2, "007", "Red Flag"⟩ : Row).Name ++ ("," ++ post))) := by
  refine ⟨by decide, by decide, ?_⟩
  exact csv_preserves_name.1 [⟨1, 2, "007", "Red Flag"⟩] ⟨1, 2, "007", "Red Flag"⟩
    (by decide) (by decide)

/-- C9 counterexample: for a row whose Name contains a comma the CSV
serializer quotes the field while the TXT serializer writes it raw, so the
two artifacts are not identical views. -/
theorem txt_csv_differ_cex :
    dataframe_to_txt [(⟨1, 2, "a,b", "Red Flag"⟩ : Row)]
      ≠ dataframe_to_csv_bytes [(⟨1, 2, "a,b", "Red Flag"⟩ : Row)]
    ∧ dataframe_to_txt [(⟨1, 2, "a,b", "Red Flag"⟩ : Row)]
      = "Latitude,Longitude,Name,Symbol\n1,2,a,b,Red Flag\n"
    ∧ dataframe_to_csv_bytes [(⟨1, 2, "a,b", "Red Flag"⟩ : Row)]
      = "Latitude,Longitude,Name,Symbol\n1,2,\"a,b\",Red Flag\n" := by
  refine ⟨?_, ?_, ?_⟩
  · with_unfolding_all decide
  · with_unfolding_all decide
  · with_unfolding_all decide

/-- C9 (amended): when no field contains a character that CSV must quote
(comma, double quote, CR, LF), the TXT and CSV serializations are
byte-identical: same header, same column order and separator, one identical
line per Feature Row. -/
theorem txt_csv_agree :
    ∀ rows : List Row,
      (∀ r ∈ rows,
        needsQuoting (floatStr r.Latitude) = false
        ∧ needsQuoting (floatStr r.Longitude) = false
        ∧ needsQuoting r.Name = false
        ∧ needsQuoting r.Symbol = false) →
      dataframe_to_txt rows = dataframe_to_csv_bytes rows := by
  intro rows h
  unfold dataframe_to_txt dataframe_to_csv_bytes
  apply List.foldl_ext
  intro acc r hr
  obtain ⟨h1, h2, h3, h4⟩ := h r hr
  have hline : rowCsvLine r = rowTxtLine r := by
    simp [rowCsvLine, rowTxtLine, csvField, h1, h2, h3, h4]
  rw [hline]

/-- Witness for C9 (amended) on a quoting-free one-row set. -/
theorem txt_csv_agree_witness :
    (∀ r ∈ ([⟨1, 2, "007", "Red Flag"⟩] : List Row),
      needsQuoting (floatStr r.Latitude) = false
      ∧ needsQuoting (floatStr r.Longitude) = false
      ∧ needsQuoting r.Name = false
      ∧ needsQuoting r.Symbol = false)
    ∧ dataframe_to_txt [(⟨1, 2, "007", "Red Flag"⟩ : Row)]
        = dataframe_to_csv_bytes [(⟨1, 2, "007", "Red Flag"⟩ : Row)] := by
  refine ⟨?_, ?_⟩
  · with_unfolding_all decide
  · exact txt_csv_agree [⟨1, 2, "007", "Red Flag"⟩] (by with_unfolding_all decide)
